import Mathlib

/-!
# Verification of the court-auction document-scraper ingestion loop

Shallow embedding of `src/scripts/scrape-documents.ts`: the result
classifier inside `scrapeDocuments`, the merge of fetch outcomes into
`DetailEntry` records, the pending-target selection, the progress
checkpoint, the `saveDetails` serialization and the main fetch loop with
its consecutive-block backoff.

Modelling conventions:
* record payload rows (the elements of the delivery/document/merger lists)
  are opaque and modelled as `Nat`;
* a JSON object consulted only via `Object.keys(...).length` is modelled as
  an association list of its fields;
* the sequence of raw fetch responses produced by the network is an
  explicit oracle `List ScrapeResult` consumed one entry per fetch attempt;
  the success/failure of each `fs.writeFileSync` call is an oracle
  `List Bool` consumed one entry per attempted write (an exhausted write
  oracle means the write succeeds);
* wall-clock waits (`waitForTimeout`) carry no state except that the block
  cooldown is accounted in `cooldownMs`, and the session re-establishment
  (`page.goto(SEARCH_PAGE)`) after a cooldown is counted in `refreshes`;
* console logging and the browser handle are omitted.
-/

/-- Opaque payload row of the delivery/document/merger record lists. -/
abbrev DocRow := Nat

/-- A prior-case JSON object, kept as its field list; the code only reads
`Object.keys(priorCase).length` and stores the object whole. -/
abbrev PriorCase := List (String × Nat)

-- ======= 설정 (policy constants, scrape-documents.ts lines 24-28) =======

def DELAY_BETWEEN : Nat := 1500

def BATCH_REST_INTERVAL : Nat := 50

def BATCH_REST_DURATION : Nat := 15000

def IP_BLOCK_WAIT : Nat := 3 * 60 * 1000

def MAX_CONSECUTIVE_BLOCKS : Nat := 5

/-- The `interface DetailEntry`: the two key codes, two display fields, the
collections attached by this scraper (absent until written), and the
remaining dynamic fields (`[key: string]: any`) as an association list. -/
structure DetailEntry where
  cortOfcCd : String
  csNo : String
  courtName : String
  caseNumber : String
  deliveryRecords : Option (List DocRow) := none
  documentRecords : Option (List DocRow) := none
  mergerRecords : Option (List DocRow) := none
  priorCaseInfo : Option PriorCase := none
  extra : List (String × Nat) := []
deriving DecidableEq

/-- The `interface ProgressData` checkpoint record. -/
structure ProgressData where
  completed : List String
  total : Nat
  startedAt : String
  lastUpdated : String
deriving DecidableEq

/-- The fields the code reads off the parsed response's data object
(`json.data || json`); `none` models an absent (or JS-falsy) field. -/
structure DataObj where
  ipcheck : Option Bool := none
  dlt_dlvrDtsLst : Option (List DocRow) := none
  dlt_ofdocDtsLst : Option (List DocRow) := none
  dlt_mrgDpcnSbxLst : Option (List DocRow) := none
  dma_trnscsBfCsInfo : Option PriorCase := none
deriving DecidableEq

/-- A successfully parsed response body: its `message` field, its `data`
wrapper field (`none` when absent or falsy), and the data fields sitting on
the body itself (used when `json.data` is falsy, via `json.data || json`). -/
structure JsonBody where
  message : Option String := none
  data : Option DataObj := none
  selfData : DataObj := {}
deriving DecidableEq

/-- Line 70, `const data = json.data || json`. -/
def effData (j : JsonBody) : DataObj := j.data.getD j.selfData

/-- Is `needle` a prefix of the second character list? -/
def isPrefixChars : List Char → List Char → Bool
  | [], _ => true
  | _ :: _, [] => false
  | p :: ps, c :: cs => p == c && isPrefixChars ps cs

/-- Does the second character list contain `needle` as a contiguous
substring? -/
def containsChars (needle : List Char) : List Char → Bool
  | [] => isPrefixChars needle []
  | c :: cs => isPrefixChars needle (c :: cs) || containsChars needle cs

/-- Line 71, `json.message?.includes('차단')`: true iff the message field
is present and contains the block phrase as a substring (an absent field
short-circuits the optional chain to a falsy value). -/
def hasBlockWord : Option String → Bool
  | some s => containsChars "차단".data s.data
  | none => false

/-- JS `a || b` on an optional string: the default is used when the field is
absent or the empty string (both JS-falsy). -/
def jsOrStr : Option String → String → String
  | some s, d => if s = "" then d else s
  | none, d => d

/-- The Fetch API `res.ok`: status in the inclusive range 200-299. -/
def resOk (status : Nat) : Bool := 200 ≤ status && status ≤ 299

/-- The classified result of one fetch attempt, mirroring the marker objects
(`__blocked` / `__nodata` / `__error`) and the raw-data return of
`scrapeDocuments` (lines 60-82). -/
inductive ScrapeResult where
  | blocked (message : Option String)
  | nodata (message : String)
  | error (status : Option Nat) (message : Option String)
  | data (d : DataObj)
deriving DecidableEq

/-- Result classification of `scrapeDocuments` (lines 60-82), as a function
of the HTTP status and the parsed body (`none` = `JSON.parse` threw):
1. unparseable body → `__error` with the status;
2. block message or `ipcheck === false` → `__blocked`;
3. status 550 → `__nodata` (데이터 없음);
4. `!res.ok` → `__error` with status and message;
5. otherwise the data object is returned. -/
def scrapeDocuments (status : Nat) (body : Option JsonBody) : ScrapeResult :=
  match body with
  | none => .error (some status) none
  | some json =>
    let d := effData json
    if hasBlockWord json.message || d.ipcheck == some false then
      .blocked json.message
    else if status == 550 then
      .nodata (jsOrStr json.message "데이터 없음")
    else if !resOk status then
      .error (some status) json.message
    else
      .data d

-- ======= merge of an outcome into a DetailEntry (lines 252-275) =======

/-- The composite work-item key `d.cortOfcCd + d.csNo` (line 131/209). -/
def entryKey (d : DetailEntry) : String := d.cortOfcCd ++ d.csNo

/-- The `__nodata` branch (lines 252-255): both primary collections set to
empty sequences. -/
def applyNoData (e : DetailEntry) : DetailEntry :=
  { e with deliveryRecords := some [], documentRecords := some [] }

/-- error branch (lines 270-274): both primary collections set to empty
sequences (the error counter is handled by the caller). -/
def applyError (e : DetailEntry) : DetailEntry :=
  { e with deliveryRecords := some [], documentRecords := some [] }

/-- success branch (lines 256-269): overwrite the two primary collections
(missing lists default to empty), attach `mergerRecords` only when
non-empty and `priorCaseInfo` only when present with at least one key. -/
def applySuccess (d : DataObj) (e : DetailEntry) : DetailEntry :=
  let deliveryList := d.dlt_dlvrDtsLst.getD []
  let documentList := d.dlt_ofdocDtsLst.getD []
  let mergerList := d.dlt_mrgDpcnSbxLst.getD []
  let priorCase := d.dma_trnscsBfCsInfo
  let e1 := { e with deliveryRecords := some deliveryList,
                     documentRecords := some documentList }
  let e2 := if mergerList.length > 0
            then { e1 with mergerRecords := some mergerList } else e1
  match priorCase with
  | some pc => if pc.length > 0 then { e2 with priorCaseInfo := some pc } else e2
  | none => e2

-- ======= record store shape (lines 119-122 and 161-171) =======

/-- The on-disk shape of `court-auction-details.json`: either a JSON array
of entries or a key→entry object (fields listed in JS enumeration order). -/
inductive StoreShape where
  | arr (entries : List DetailEntry)
  | obj (fields : List (String × DetailEntry))
deriving DecidableEq

/-- Loading (lines 119-122): an array is used as-is, an object is flattened
with `Object.values`. -/
def loadDetails : StoreShape → List DetailEntry
  | .arr es => es
  | .obj kvs => kvs.map Prod.snd

/-- Line 162, `Array.isArray(rawData)`. -/
def isArrayShape : StoreShape → Bool
  | .arr _ => true
  | .obj _ => false

/-- The `saveDetails` serialization (lines 161-171): an array-shaped store is written back as
the entry sequence; an object-shaped store is written as an object whose
keys are `String(idx)` for each position `idx` of the entry list. -/
def saveDetailsOut (isArray : Bool) (details : List DetailEntry) : StoreShape :=
  if isArray then .arr details
  else .obj (details.enum.map fun p => (toString p.1, p.2))

-- ======= pending-target selection (lines 126-135) =======

/-- Target filter (lines 130-135): keep the entries whose key is not in the
checkpoint's completed set and whose `deliveryRecords` field is absent. -/
def pendingTargets (details : List DetailEntry) (completed : List String) :
    List DetailEntry :=
  details.filter fun d =>
    !(completed.contains (entryKey d)) && d.deliveryRecords.isNone

-- ======= detail map (lines 155-158) =======

/-- The index of the last occurrence of `k` in `keys`: `detailMap` is built
by inserting every entry under its key in list order, so a later duplicate
overwrites an earlier one, and `Map.get` returns that last entry. -/
def lastIdxOf (keys : List String) (k : String) : Option Nat :=
  ((keys.enum.filter fun p => p.2 == k).getLast?).map Prod.fst

/-- The append `progress.completed.push(key)`. -/
def pushCompleted (p : ProgressData) (key : String) : ProgressData :=
  { p with completed := p.completed ++ [key] }

-- ======= loop state =======

/-- The mutable state of `main`'s fetch loop, together with the durable
snapshots (`savedDetails` / `savedProgress` are what the last successful
write of each file contains) and instrumentation of the effects the claims
talk about (`cooldownMs`, `refreshes`, `saveAttempts`). -/
structure RunState where
  details : List DetailEntry
  progress : ProgressData
  success : Nat := 0
  errors : Nat := 0
  consecutiveBlocks : Nat := 0
  deliveryItems : Nat := 0
  documentItems : Nat := 0
  savedDetails : Option (List DetailEntry) := none
  savedProgress : Option ProgressData := none
  cooldownMs : Nat := 0
  refreshes : Nat := 0
  saveAttempts : Nat := 0
deriving DecidableEq

/-- Run configuration: the `--test` flag (which makes the loop flush on
every item) and the timestamp written by `saveProgress`. -/
structure Config where
  testMode : Bool := false
  now : String := ""
deriving DecidableEq

/-- How the loop ended: `normal` covers both a clean completion and a
final-flush exception (`main().catch(console.error)` swallows it, so the
process still exits 0); `aborted` is the consecutive-block `process.exit(1)`;
`starved` is a modelling artifact meaning the fetch oracle ran out. -/
inductive ExitKind where
  | normal
  | aborted
  | starved
deriving DecidableEq

/-- The process exit status for each exit kind. -/
def exitCode : ExitKind → Nat
  | .normal => 0
  | .aborted => 1
  | .starved => 0

/-- Apply `f` to the entry at `idx` (the in-place mutation of the object
shared by `details` and `detailMap`). -/
def updateEntry (details : List DetailEntry) (idx : Nat)
    (f : DetailEntry → DetailEntry) : List DetailEntry :=
  match details[idx]? with
  | some e => details.set idx (f e)
  | none => details

/-- Draw the next write result from the save oracle (exhausted = success). -/
def takeSave : List Bool → Bool × List Bool
  | [] => (true, [])
  | b :: rest => (b, rest)

/-- Lines 101-106, `saveProgress(progress)`: stamps `lastUpdated`, then
attempts the write; on success the durable snapshot becomes the stamped
progress.  The in-memory stamp happens even when the write throws. -/
def trySaveProgress (cfg : Config) (st : RunState) (saves : List Bool) :
    RunState × List Bool × Bool :=
  let p := { st.progress with lastUpdated := cfg.now }
  let (ok, saves2) := takeSave saves
  let st2 := { st with progress := p, saveAttempts := st.saveAttempts + 1 }
  if ok then ({ st2 with savedProgress := some p }, saves2, true)
  else (st2, saves2, false)

/-- The loop-invoked `saveDetails()`: attempts the write; on
success the durable snapshot becomes the current in-memory entry list. -/
def trySaveDetails (st : RunState) (saves : List Bool) :
    RunState × List Bool × Bool :=
  let (ok, saves2) := takeSave saves
  let st2 := { st with saveAttempts := st.saveAttempts + 1 }
  if ok then ({ st2 with savedDetails := some st.details }, saves2, true)
  else (st2, saves2, false)

/-- Is the classified result the `__blocked` marker? (`result?.__blocked`) -/
def isBlockedR : ScrapeResult → Bool
  | .blocked _ => true
  | _ => false

/-- Is the classified result the `__error` marker (or a falsy result)? -/
def isErrorR : ScrapeResult → Bool
  | .error _ _ => true
  | _ => false

/-- The settle step for a non-blocked result (lines 250-278 minus the reset
of `consecutiveBlocks`, which the caller performs first): merge the outcome
into the entry at `idx`, accumulate the per-type statistics, count an error
for the error branch, then `success++` and mark the key completed. -/
def applyOutcome (r : ScrapeResult) (idx : Nat) (key : String)
    (st : RunState) : RunState :=
  match r with
  | .nodata _ =>
      { st with details := updateEntry st.details idx applyNoData,
                success := st.success + 1,
                progress := pushCompleted st.progress key }
  | .data d =>
      { st with details := updateEntry st.details idx (applySuccess d),
                deliveryItems := st.deliveryItems + (d.dlt_dlvrDtsLst.getD []).length,
                documentItems := st.documentItems + (d.dlt_ofdocDtsLst.getD []).length,
                success := st.success + 1,
                progress := pushCompleted st.progress key }
  | .error _ _ =>
      { st with details := updateEntry st.details idx applyError,
                errors := st.errors + 1,
                success := st.success + 1,
                progress := pushCompleted st.progress key }
  | .blocked _ => st

/-- Control outcome of one pass through the loop body: either the run ends
(`halt`) or control returns to the top of the loop at index `i` with the
remaining oracles and the updated state (`goto`). -/
inductive StepOut where
  | halt (st : RunState) (saves : List Bool) (k : ExitKind)
  | goto (i : Nat) (fetches : List ScrapeResult) (saves : List Bool)
         (st : RunState)
deriving DecidableEq

/-- One pass through the body of `main`'s fetch loop (lines 207-296), at
index `i`.  `targets` is the pending list, `keys0` the key list of the
initial record store from which `detailMap` was built (lines 155-158).
The cases:
* a target whose key misses the map: `errors++`, mark completed, advance
  (lines 220-225), consuming no fetch;
* a `__blocked` result: increment `consecutiveBlocks`; at
  `MAX_CONSECUTIVE_BLOCKS` save both files and `process.exit(1)` (an
  exception in either write is caught by the per-item handler: `errors++`
  and the loop advances); below it, wait `IP_BLOCK_WAIT`, re-establish the
  session, and retry the same index (`i--; continue`);
* otherwise reset `consecutiveBlocks`, merge the outcome, and every 10th
  index (or always under `--test`) write progress then details, a failed
  write being caught by the per-item handler (`errors++`) after which the
  loop advances.
After the last index: final `saveDetails(); saveProgress(progress)` (a
throw there is swallowed by `main().catch`, the process still exits 0). -/
def loopBody (cfg : Config) (targets : List DetailEntry) (keys0 : List String)
    (i : Nat) (fetches : List ScrapeResult) (saves : List Bool)
    (st : RunState) : StepOut :=
  if h : i < targets.length then
    let t := targets.get ⟨i, h⟩
    let key := entryKey t
    match lastIdxOf keys0 key with
    | none =>
        .goto (i+1) fetches saves
          { st with errors := st.errors + 1,
                    progress := pushCompleted st.progress key }
    | some idx =>
      match fetches with
      | [] => .halt st saves .starved
      | r :: rest =>
        if isBlockedR r then
          let st1 := { st with consecutiveBlocks := st.consecutiveBlocks + 1 }
          if MAX_CONSECUTIVE_BLOCKS ≤ st1.consecutiveBlocks then
            let s1 := trySaveDetails st1 saves
            if s1.2.2 then
              let s2 := trySaveProgress cfg s1.1 s1.2.1
              if s2.2.2 then .halt s2.1 s2.2.1 .aborted
              else .goto (i+1) rest s2.2.1
                     { s2.1 with errors := s2.1.errors + 1 }
            else .goto (i+1) rest s1.2.1
                   { s1.1 with errors := s1.1.errors + 1 }
          else
            let st2 := { st1 with cooldownMs := st1.cooldownMs + IP_BLOCK_WAIT,
                                  refreshes := st1.refreshes + 1 }
            .goto i rest saves st2
        else
          let st1 := applyOutcome r idx key { st with consecutiveBlocks := 0 }
          if i % 10 == 0 || cfg.testMode then
            let s1 := trySaveProgress cfg st1 saves
            if s1.2.2 then
              let s2 := trySaveDetails s1.1 s1.2.1
              if s2.2.2 then .goto (i+1) rest s2.2.1 s2.1
              else .goto (i+1) rest s2.2.1
                     { s2.1 with errors := s2.1.errors + 1 }
            else .goto (i+1) rest s1.2.1
                   { s1.1 with errors := s1.1.errors + 1 }
          else .goto (i+1) rest saves st1
  else
    let s1 := trySaveDetails st saves
    if s1.2.2 then
      let s2 := trySaveProgress cfg s1.1 s1.2.1
      .halt s2.1 s2.2.1 .normal
    else .halt s1.1 s1.2.1 .normal

/-- The loop measure bound required of a `loopBody` outcome: a `goto` must
strictly decrease the remaining fetch oracle plus remaining target count. -/
def gotoMeasureOk (targets : List DetailEntry) (i : Nat)
    (fetches : List ScrapeResult) : StepOut → Prop
  | .goto i2 f2 _ _ =>
      f2.length + (targets.length - i2) <
        fetches.length + (targets.length - i)
  | .halt _ _ _ => True

/-- The fetch loop of `main` (lines 207-296): repeat `loopBody` until it
halts. -/
def runLoop (cfg : Config) (targets : List DetailEntry) (keys0 : List String)
    (i : Nat) (fetches : List ScrapeResult) (saves : List Bool)
    (st : RunState) : RunState × List Bool × ExitKind :=
  match hstep : loopBody cfg targets keys0 i fetches saves st with
  | .halt st2 saves2 k => (st2, saves2, k)
  | .goto i2 f2 s2 st2 => runLoop cfg targets keys0 i2 f2 s2 st2
termination_by fetches.length + (targets.length - i)
decreasing_by
  have hlt : gotoMeasureOk targets i fetches
      (loopBody cfg targets keys0 i fetches saves st) := by
      unfold loopBody
      by_cases h : i < targets.length
      · rw [dif_pos h]
        dsimp only
        cases hidx : lastIdxOf keys0 (entryKey (targets.get ⟨i, h⟩)) with
        | none =>
            simp only [gotoMeasureOk]
            omega
        | some idx =>
            cases fetches with
            | nil => simp only [gotoMeasureOk]
            | cons r rest =>
              dsimp only
              repeat' split
              all_goals simp only [gotoMeasureOk, List.length_cons]
              all_goals first
                | trivial
                | omega
      · rw [dif_neg h]
        rw [apply_ite (gotoMeasureOk targets i fetches)]
        simp only [gotoMeasureOk, ite_self]
  rw [hstep] at hlt
  exact hlt

-- ======= concrete fixtures =======

/-- An empty fresh checkpoint (the non-resume branch of `loadProgress`). -/
def progA : ProgressData :=
  { completed := [], total := 0,
    startedAt := "2026-01-01T00:00:00.000Z",
    lastUpdated := "2026-01-01T00:00:00.000Z" }

/-- A concrete never-fetched detail entry. -/
def entA : DetailEntry :=
  { cortOfcCd := "B000210", csNo := "20240130012345",
    courtName := "서울중앙지방법원", caseNumber := "2024타경12345" }

/-- A second concrete never-fetched detail entry. -/
def entB : DetailEntry :=
  { cortOfcCd := "B000210", csNo := "20240130054321",
    courtName := "서울중앙지방법원", caseNumber := "2024타경54321" }

/-- The continuation state of a `goto` body outcome, if any. -/
def gotoState : StepOut → Option RunState
  | StepOut.goto _ _ _ st2 => some st2
  | StepOut.halt _ _ _ => none

/-- The continuation index of a `goto` body outcome, if any. -/
def gotoIdx : StepOut → Option Nat
  | StepOut.goto i2 _ _ _ => some i2
  | StepOut.halt _ _ _ => none

-- ======= C8 fixtures: a run whose first periodic flush write fails =======

/-- Loop state at the start of the C8 run. -/
def c8st0 : RunState := { details := [entA, entB], progress := progA }

/-- Checkpoint after the first item settles and its flush write fails
(the `lastUpdated` stamp happens before the write throws). -/
def c8prog1 : ProgressData :=
  { completed := [entryKey entA], total := 0,
    startedAt := progA.startedAt, lastUpdated := "" }

/-- Loop state after the first item: merged, counted, key pushed, one
failed write attempt counted as an error, nothing durably saved. -/
def c8st1 : RunState :=
  { details := [applyNoData entA, entB], progress := c8prog1,
    success := 1, errors := 1, saveAttempts := 1 }

/-- Checkpoint after the second item settles. -/
def c8prog2 : ProgressData :=
  { completed := [entryKey entA, entryKey entB], total := 0,
    startedAt := progA.startedAt, lastUpdated := "" }

/-- Loop state after the second item (no flush due at index 1). -/
def c8st2 : RunState :=
  { details := [applyNoData entA, applyNoData entB], progress := c8prog2,
    success := 2, errors := 1, saveAttempts := 1 }

/-- Final state: the final flush (exhausted oracle = success) wrote both
files; the run exits normally. -/
def c8stF : RunState :=
  { details := [applyNoData entA, applyNoData entB], progress := c8prog2,
    success := 2, errors := 1,
    savedDetails := some [applyNoData entA, applyNoData entB],
    savedProgress := some c8prog2, saveAttempts := 3 }

-- ======= step equations of the loop =======

/-- Unfolding equation of `runLoop`. -/
theorem runLoop_eq (cfg : Config) (targets : List DetailEntry)
    (keys0 : List String) (i : Nat) (fetches : List ScrapeResult)
    (saves : List Bool) (st : RunState) :
    runLoop cfg targets keys0 i fetches saves st =
      match loopBody cfg targets keys0 i fetches saves st with
      | .halt st2 saves2 k => (st2, saves2, k)
      | .goto i2 f2 s2 st2 => runLoop cfg targets keys0 i2 f2 s2 st2 := by
  rw [runLoop]
  cases loopBody cfg targets keys0 i fetches saves st <;> rfl

/-- A `goto` outcome of the body makes `runLoop` continue there. -/
theorem runLoop_goto (cfg : Config) (targets : List DetailEntry)
    (keys0 : List String) (i : Nat) (fetches : List ScrapeResult)
    (saves : List Bool) (st : RunState) (i2 : Nat) (f2 : List ScrapeResult)
    (s2 : List Bool) (st2 : RunState)
    (hstep : loopBody cfg targets keys0 i fetches saves st =
      .goto i2 f2 s2 st2) :
    runLoop cfg targets keys0 i fetches saves st =
      runLoop cfg targets keys0 i2 f2 s2 st2 := by
  rw [runLoop_eq, hstep]

/-- A `halt` outcome of the body ends `runLoop` with that result. -/
theorem runLoop_halt (cfg : Config) (targets : List DetailEntry)
    (keys0 : List String) (i : Nat) (fetches : List ScrapeResult)
    (saves : List Bool) (st : RunState) (st2 : RunState) (saves2 : List Bool)
    (k : ExitKind)
    (hstep : loopBody cfg targets keys0 i fetches saves st =
      .halt st2 saves2 k) :
    runLoop cfg targets keys0 i fetches saves st = (st2, saves2, k) := by
  rw [runLoop_eq, hstep]

/-- Body step, target key absent from the detail map (lines 220-225):
count an error, mark the key completed, advance past the item without
consuming a fetch. -/
theorem loopBody_no_entry (cfg : Config) (targets : List DetailEntry)
    (keys0 : List String) (i : Nat) (fetches : List ScrapeResult)
    (saves : List Bool) (st : RunState)
    (hi : i < targets.length)
    (hnone : lastIdxOf keys0 (entryKey (targets.get ⟨i, hi⟩)) = none) :
    loopBody cfg targets keys0 i fetches saves st =
      .goto (i+1) fetches saves
        { st with errors := st.errors + 1,
                  progress := pushCompleted st.progress
                    (entryKey (targets.get ⟨i, hi⟩)) } := by
  unfold loopBody
  rw [dif_pos hi]
  dsimp only
  rw [hnone]

/-- Body step, `__blocked` result below the abort threshold (lines
230-247): increment `consecutiveBlocks`, wait the fixed `IP_BLOCK_WAIT`
cooldown, re-establish the session, and loop back to the *same* index;
the entry, the checkpoint, and the counters are untouched. -/
theorem loopBody_blocked_retry (cfg : Config) (targets : List DetailEntry)
    (keys0 : List String) (i : Nat) (m : Option String)
    (rest : List ScrapeResult) (saves : List Bool) (st : RunState)
    (idx : Nat) (hi : i < targets.length)
    (hidx : lastIdxOf keys0 (entryKey (targets.get ⟨i, hi⟩)) = some idx)
    (hlt : st.consecutiveBlocks + 1 < MAX_CONSECUTIVE_BLOCKS) :
    loopBody cfg targets keys0 i (.blocked m :: rest) saves st =
      .goto i rest saves
        { st with consecutiveBlocks := st.consecutiveBlocks + 1,
                  cooldownMs := st.cooldownMs + IP_BLOCK_WAIT,
                  refreshes := st.refreshes + 1 } := by
  unfold loopBody
  rw [dif_pos hi]
  dsimp only
  rw [hidx]
  dsimp only [isBlockedR]
  rw [if_pos rfl, if_neg (by omega)]

/-- Body step, `__blocked` result reaching the abort threshold with both
writes succeeding (lines 234-240): save details then progress and halt the
run with the failure exit. -/
theorem loopBody_blocked_abort (cfg : Config) (targets : List DetailEntry)
    (keys0 : List String) (i : Nat) (m : Option String)
    (rest : List ScrapeResult) (saves2 : List Bool) (st : RunState)
    (idx : Nat) (hi : i < targets.length)
    (hidx : lastIdxOf keys0 (entryKey (targets.get ⟨i, hi⟩)) = some idx)
    (hge : MAX_CONSECUTIVE_BLOCKS ≤ st.consecutiveBlocks + 1) :
    loopBody cfg targets keys0 i (.blocked m :: rest)
        (true :: true :: saves2) st =
      .halt
        { st with consecutiveBlocks := st.consecutiveBlocks + 1,
                  savedDetails := some st.details,
                  progress := { st.progress with lastUpdated := cfg.now },
                  savedProgress :=
                    some { st.progress with lastUpdated := cfg.now },
                  saveAttempts := st.saveAttempts + 2 }
        saves2 .aborted := by
  unfold loopBody
  rw [dif_pos hi]
  dsimp only
  rw [hidx]
  dsimp only [isBlockedR]
  rw [if_pos rfl, if_pos (by exact hge)]
  simp only [trySaveDetails, trySaveProgress, takeSave]
  rfl

/-- Body step, settled (non-blocked) result with no periodic flush due
(lines 250-278): reset `consecutiveBlocks`, merge the outcome, count it,
mark the key completed, advance. -/
theorem loopBody_settled_noflush (cfg : Config) (targets : List DetailEntry)
    (keys0 : List String) (i : Nat) (r : ScrapeResult)
    (rest : List ScrapeResult) (saves : List Bool) (st : RunState)
    (idx : Nat) (hi : i < targets.length)
    (hidx : lastIdxOf keys0 (entryKey (targets.get ⟨i, hi⟩)) = some idx)
    (hnb : isBlockedR r = false)
    (hflush : (i % 10 == 0 || cfg.testMode) = false) :
    loopBody cfg targets keys0 i (r :: rest) saves st =
      .goto (i+1) rest saves
        (applyOutcome r idx (entryKey (targets.get ⟨i, hi⟩))
          { st with consecutiveBlocks := 0 }) := by
  unfold loopBody
  rw [dif_pos hi]
  dsimp only
  rw [hidx]
  dsimp only
  rw [if_neg (by simp [hnb]), if_neg (by simp_all)]

/-- Body step, settled result with the periodic flush due and both writes
succeeding (lines 280-284): progress then details are flushed and the loop
advances. -/
theorem loopBody_settled_flush_ok (cfg : Config) (targets : List DetailEntry)
    (keys0 : List String) (i : Nat) (r : ScrapeResult)
    (rest : List ScrapeResult) (saves2 : List Bool) (st : RunState)
    (idx : Nat) (hi : i < targets.length)
    (hidx : lastIdxOf keys0 (entryKey (targets.get ⟨i, hi⟩)) = some idx)
    (hnb : isBlockedR r = false)
    (hflush : (i % 10 == 0 || cfg.testMode) = true) :
    loopBody cfg targets keys0 i (r :: rest) (true :: true :: saves2) st =
      .goto (i+1) rest saves2
        (let st1 := applyOutcome r idx (entryKey (targets.get ⟨i, hi⟩))
           { st with consecutiveBlocks := 0 }
         let p := { st1.progress with lastUpdated := cfg.now }
         { st1 with progress := p, savedProgress := some p,
                    savedDetails := some st1.details,
                    saveAttempts := st1.saveAttempts + 2 }) := by
  unfold loopBody
  rw [dif_pos hi]
  dsimp only
  rw [hidx]
  dsimp only
  rw [if_neg (by simp [hnb]), if_pos hflush]
  simp only [trySaveProgress, trySaveDetails, takeSave]
  rfl

/-- Body step, settled result, flush due, but the progress write throws
(the first write of the pair): the exception lands in the per-item catch,
`errors++`, and the loop advances; nothing reaches durable storage. -/
theorem loopBody_settled_flush_fail1 (cfg : Config)
    (targets : List DetailEntry) (keys0 : List String) (i : Nat)
    (r : ScrapeResult) (rest : List ScrapeResult) (saves2 : List Bool)
    (st : RunState) (idx : Nat) (hi : i < targets.length)
    (hidx : lastIdxOf keys0 (entryKey (targets.get ⟨i, hi⟩)) = some idx)
    (hnb : isBlockedR r = false)
    (hflush : (i % 10 == 0 || cfg.testMode) = true) :
    loopBody cfg targets keys0 i (r :: rest) (false :: saves2) st =
      .goto (i+1) rest saves2
        (let st1 := applyOutcome r idx (entryKey (targets.get ⟨i, hi⟩))
           { st with consecutiveBlocks := 0 }
         { st1 with progress := { st1.progress with lastUpdated := cfg.now },
                    saveAttempts := st1.saveAttempts + 1,
                    errors := st1.errors + 1 }) := by
  unfold loopBody
  rw [dif_pos hi]
  dsimp only
  rw [hidx]
  dsimp only
  rw [if_neg (by simp [hnb]), if_pos hflush]
  simp only [trySaveProgress, trySaveDetails, takeSave]
  rfl

/-- Body step, settled result, flush due, progress write succeeds but the
details write throws: `errors++` and the loop advances; the details file
keeps its previous durable contents. -/
theorem loopBody_settled_flush_fail2 (cfg : Config)
    (targets : List DetailEntry) (keys0 : List String) (i : Nat)
    (r : ScrapeResult) (rest : List ScrapeResult) (saves2 : List Bool)
    (st : RunState) (idx : Nat) (hi : i < targets.length)
    (hidx : lastIdxOf keys0 (entryKey (targets.get ⟨i, hi⟩)) = some idx)
    (hnb : isBlockedR r = false)
    (hflush : (i % 10 == 0 || cfg.testMode) = true) :
    loopBody cfg targets keys0 i (r :: rest) (true :: false :: saves2) st =
      .goto (i+1) rest saves2
        (let st1 := applyOutcome r idx (entryKey (targets.get ⟨i, hi⟩))
           { st with consecutiveBlocks := 0 }
         let p := { st1.progress with lastUpdated := cfg.now }
         { st1 with progress := p, savedProgress := some p,
                    saveAttempts := st1.saveAttempts + 2,
                    errors := st1.errors + 1 }) := by
  unfold loopBody
  rw [dif_pos hi]
  dsimp only
  rw [hidx]
  dsimp only
  rw [if_neg (by simp [hnb]), if_pos hflush]
  simp only [trySaveProgress, trySaveDetails, takeSave]
  rfl

/-- Body step past the last index with both final writes succeeding
(lines 293-296): flush details then progress, exit normally. -/
theorem loopBody_finish_ok (cfg : Config) (targets : List DetailEntry)
    (keys0 : List String) (i : Nat) (fetches : List ScrapeResult)
    (saves2 : List Bool) (st : RunState)
    (hi : ¬ i < targets.length) :
    loopBody cfg targets keys0 i fetches (true :: true :: saves2) st =
      .halt
        { st with savedDetails := some st.details,
                  progress := { st.progress with lastUpdated := cfg.now },
                  savedProgress :=
                    some { st.progress with lastUpdated := cfg.now },
                  saveAttempts := st.saveAttempts + 2 }
        saves2 .normal := by
  unfold loopBody
  rw [dif_neg hi]
  simp only [trySaveDetails, trySaveProgress, takeSave]
  rfl

/-- Fields of the loop state that `saveProgress` never changes. -/
theorem trySaveProgress_invariants (cfg : Config) (st : RunState)
    (saves : List Bool) :
    (trySaveProgress cfg st saves).1.success = st.success ∧
    (trySaveProgress cfg st saves).1.errors = st.errors ∧
    (trySaveProgress cfg st saves).1.details = st.details ∧
    (trySaveProgress cfg st saves).1.progress.completed =
      st.progress.completed ∧
    (trySaveProgress cfg st saves).1.consecutiveBlocks =
      st.consecutiveBlocks := by
  unfold trySaveProgress
  dsimp only
  split <;> simp

/-- Fields of the loop state that `saveDetails` never changes. -/
theorem trySaveDetails_invariants (st : RunState) (saves : List Bool) :
    (trySaveDetails st saves).1.success = st.success ∧
    (trySaveDetails st saves).1.errors = st.errors ∧
    (trySaveDetails st saves).1.details = st.details ∧
    (trySaveDetails st saves).1.progress = st.progress ∧
    (trySaveDetails st saves).1.consecutiveBlocks =
      st.consecutiveBlocks := by
  unfold trySaveDetails
  dsimp only
  split <;> simp

/-- Body step past the last index, independent of the save oracle: the run
always exits normally (a final-flush exception is swallowed by the
top-level catch), the success and error counters and the in-memory record
store are what they were at the end of the loop, and no fetch happens. -/
theorem loopBody_finish_exit (cfg : Config) (targets : List DetailEntry)
    (keys0 : List String) (i : Nat) (fetches : List ScrapeResult)
    (saves : List Bool) (st : RunState)
    (hi : ¬ i < targets.length) :
    ∃ st2 saves2,
      loopBody cfg targets keys0 i fetches saves st =
        .halt st2 saves2 .normal ∧
      st2.success = st.success ∧ st2.errors = st.errors ∧
      st2.details = st.details ∧
      st2.progress.completed = st.progress.completed := by
  unfold loopBody
  rw [dif_neg hi]
  dsimp only
  have hd := trySaveDetails_invariants st saves
  have hp := trySaveProgress_invariants cfg (trySaveDetails st saves).1
    (trySaveDetails st saves).2.1
  split
  · refine ⟨_, _, rfl, ?_, ?_, ?_, ?_⟩ <;>
      simp only [hp.1, hp.2.1, hp.2.2.1, hp.2.2.2.1,
        hd.1, hd.2.1, hd.2.2.1, hd.2.2.2.1]
  · refine ⟨_, _, rfl, ?_, ?_, ?_, ?_⟩ <;>
      simp only [hd.1, hd.2.1, hd.2.2.1, hd.2.2.2.1]

/-- Counter effect of settling one non-blocked outcome: `success++` always;
`errors++` exactly for the error branch; the completed set gains the key. -/
theorem applyOutcome_counters (r : ScrapeResult) (idx : Nat) (key : String)
    (st : RunState) (hnb : isBlockedR r = false) :
    (applyOutcome r idx key st).success = st.success + 1 ∧
    (applyOutcome r idx key st).errors =
      st.errors + (if isErrorR r then 1 else 0) ∧
    (applyOutcome r idx key st).progress.completed =
      st.progress.completed ++ [key] := by
  cases r <;> simp_all [applyOutcome, isBlockedR, isErrorR, pushCompleted]

/-- Settled step with flush due and an exhausted save oracle (both writes
succeed by convention). -/
theorem loopBody_settled_flush_nil (cfg : Config)
    (targets : List DetailEntry) (keys0 : List String) (i : Nat)
    (r : ScrapeResult) (rest : List ScrapeResult) (st : RunState)
    (idx : Nat) (hi : i < targets.length)
    (hidx : lastIdxOf keys0 (entryKey (targets.get ⟨i, hi⟩)) = some idx)
    (hnb : isBlockedR r = false)
    (hflush : (i % 10 == 0 || cfg.testMode) = true) :
    loopBody cfg targets keys0 i (r :: rest) [] st =
      .goto (i+1) rest []
        (let st1 := applyOutcome r idx (entryKey (targets.get ⟨i, hi⟩))
           { st with consecutiveBlocks := 0 }
         let p := { st1.progress with lastUpdated := cfg.now }
         { st1 with progress := p, savedProgress := some p,
                    savedDetails := some st1.details,
                    saveAttempts := st1.saveAttempts + 2 }) := by
  unfold loopBody
  rw [dif_pos hi]
  dsimp only
  rw [hidx]
  dsimp only
  rw [if_neg (by simp [hnb]), if_pos hflush]
  simp only [trySaveProgress, trySaveDetails, takeSave]
  rfl

/-- Settled step with flush due and a one-entry save oracle `[true]`. -/
theorem loopBody_settled_flush_one (cfg : Config)
    (targets : List DetailEntry) (keys0 : List String) (i : Nat)
    (r : ScrapeResult) (rest : List ScrapeResult) (st : RunState)
    (idx : Nat) (hi : i < targets.length)
    (hidx : lastIdxOf keys0 (entryKey (targets.get ⟨i, hi⟩)) = some idx)
    (hnb : isBlockedR r = false)
    (hflush : (i % 10 == 0 || cfg.testMode) = true) :
    loopBody cfg targets keys0 i (r :: rest) [true] st =
      .goto (i+1) rest []
        (let st1 := applyOutcome r idx (entryKey (targets.get ⟨i, hi⟩))
           { st with consecutiveBlocks := 0 }
         let p := { st1.progress with lastUpdated := cfg.now }
         { st1 with progress := p, savedProgress := some p,
                    savedDetails := some st1.details,
                    saveAttempts := st1.saveAttempts + 2 }) := by
  unfold loopBody
  rw [dif_pos hi]
  dsimp only
  rw [hidx]
  dsimp only
  rw [if_neg (by simp [hnb]), if_pos hflush]
  simp only [trySaveProgress, trySaveDetails, takeSave]
  rfl

/-- Settled step under an all-successful save oracle, both with and without
a flush due: the loop advances one index, consumes one fetch, `success`
grows by one, `errors` grows by one exactly for an error outcome, the key
is appended to the completed set, and the save oracle stays all-true. -/
theorem loopBody_settled_allok (cfg : Config) (targets : List DetailEntry)
    (keys0 : List String) (i : Nat) (r : ScrapeResult)
    (rest : List ScrapeResult) (saves : List Bool) (st : RunState)
    (idx : Nat) (hi : i < targets.length)
    (hidx : lastIdxOf keys0 (entryKey (targets.get ⟨i, hi⟩)) = some idx)
    (hnb : isBlockedR r = false)
    (hsaves : ∀ b ∈ saves, b = true) :
    ∃ saves2 st2,
      loopBody cfg targets keys0 i (r :: rest) saves st =
        .goto (i+1) rest saves2 st2 ∧
      st2.success = st.success + 1 ∧
      st2.errors = st.errors + (if isErrorR r then 1 else 0) ∧
      st2.progress.completed =
        st.progress.completed ++ [entryKey (targets.get ⟨i, hi⟩)] ∧
      (∀ b ∈ saves2, b = true) := by
  have hc := applyOutcome_counters r idx (entryKey (targets.get ⟨i, hi⟩))
    { st with consecutiveBlocks := 0 } hnb
  by_cases hflush : (i % 10 == 0 || cfg.testMode) = true
  · rcases saves with _ | ⟨b1, _ | ⟨b2, s2⟩⟩
    · rw [loopBody_settled_flush_nil cfg targets keys0 i r rest st idx hi
        hidx hnb hflush]
      exact ⟨[], _, rfl, by simpa using hc.1, by simpa using hc.2.1,
        by simpa using hc.2.2, by simp⟩
    · have hb1 : b1 = true := hsaves b1 (by simp)
      subst hb1
      rw [loopBody_settled_flush_one cfg targets keys0 i r rest st idx hi
        hidx hnb hflush]
      exact ⟨[], _, rfl, by simpa using hc.1, by simpa using hc.2.1,
        by simpa using hc.2.2, by simp⟩
    · have hb1 : b1 = true := hsaves b1 (by simp)
      have hb2 : b2 = true := hsaves b2 (by simp)
      subst hb1
      subst hb2
      rw [loopBody_settled_flush_ok cfg targets keys0 i r rest s2 st idx hi
        hidx hnb hflush]
      refine ⟨s2, _, rfl, by simpa using hc.1, by simpa using hc.2.1,
        by simpa using hc.2.2, ?_⟩
      intro b hb
      exact hsaves b (by simp [hb])
  · rw [loopBody_settled_noflush cfg targets keys0 i r rest saves st idx hi
      hidx hnb (by simpa using hflush)]
    exact ⟨saves, _, rfl, hc.1, hc.2.1, hc.2.2, hsaves⟩

/-- C10: across a run in which every fetch settles (none is classified
`__blocked`), every target key resolves in the detail map, and no
persistence write fails, the reported success counter grows by exactly the
number of processed items — the `success++` at line 277 runs for *every*
settled item, including those classified `__error` or `__nodata` — while
the error counter grows by exactly the number of `__error`-classified
items, which are therefore counted in both totals; the run then exits
normally.  So in the final summary the success count equals the number of
settled items, not the number of data-bearing fetches. -/
theorem success_counts_all_settled (cfg : Config)
    (targets : List DetailEntry) (keys0 : List String) (i : Nat)
    (fetches : List ScrapeResult) (saves : List Bool) (st : RunState)
    (hnb : ∀ r ∈ fetches, isBlockedR r = false)
    (hlen : fetches.length = targets.length - i)
    (hfound : ∀ j, ∀ hj : j < targets.length, i ≤ j →
      (lastIdxOf keys0 (entryKey (targets.get ⟨j, hj⟩))).isSome = true)
    (hsaves : ∀ b ∈ saves, b = true) :
    (runLoop cfg targets keys0 i fetches saves st).1.success =
      st.success + fetches.length ∧
    (runLoop cfg targets keys0 i fetches saves st).1.errors =
      st.errors + fetches.countP isErrorR ∧
    (runLoop cfg targets keys0 i fetches saves st).2.2 =
      ExitKind.normal := by
  induction fetches generalizing i saves st with
  | nil =>
    have hi : ¬ i < targets.length := by
      simp only [List.length_nil] at hlen
      omega
    obtain ⟨st2, saves2, hhalt, hs, he, _, _⟩ :=
      loopBody_finish_exit cfg targets keys0 i [] saves st hi
    rw [runLoop_halt cfg targets keys0 i [] saves st st2 saves2 .normal hhalt]
    simp [hs, he]
  | cons r rest ih =>
    have hi : i < targets.length := by
      simp only [List.length_cons] at hlen
      omega
    have hfj := hfound i hi (le_refl i)
    obtain ⟨idx, hidx⟩ := Option.isSome_iff_exists.mp hfj
    have hnbr : isBlockedR r = false := hnb r (by simp)
    obtain ⟨saves2, st2, hgoto, hs, he, hcomp, hsaves2⟩ :=
      loopBody_settled_allok cfg targets keys0 i r rest saves st idx hi
        hidx hnbr hsaves
    rw [runLoop_goto cfg targets keys0 i (r :: rest) saves st (i+1) rest
      saves2 st2 hgoto]
    have ihr := ih (i+1) saves2 st2
      (fun r2 hr2 => hnb r2 (by simp [hr2]))
      (by simp only [List.length_cons] at hlen; omega)
      (fun j hj hij => hfound j hj (by omega))
      hsaves2
    rcases ihr with ⟨ihs, ihe, ihk⟩
    refine ⟨?_, ?_, ihk⟩
    · rw [ihs, hs]
      simp only [List.length_cons]
      omega
    · rw [ihe, he, List.countP_cons]
      by_cases hE : isErrorR r <;> simp [hE] <;> omega

-- ======= claims =======

/-- C3: for every parsed response body carrying a block indicator — the
message field containing the block phrase 차단, or the explicit `ipcheck`
flag present and `false` — `scrapeDocuments` classifies the response as
`__blocked`, whatever the HTTP status: in particular also when the status
is a non-2xx failure or the no-data status 550, so block detection takes
priority over the error and no-data classifications. -/
theorem block_priority_in_classifier (status : Nat) (j : JsonBody)
    (h : hasBlockWord j.message = true ∨ (effData j).ipcheck = some false) :
    scrapeDocuments status (some j) = ScrapeResult.blocked j.message := by
  unfold scrapeDocuments
  dsimp only
  rcases h with h | h
  · rw [if_pos (by simp [h])]
  · rw [if_pos (by simp [h])]

/-- Witness for C3 at a concrete input: a response with HTTP status 500
(a non-2xx failure) whose message contains 차단 classifies as blocked. -/
theorem block_priority_in_classifier_witness :
    (hasBlockWord (some "연속조회로 인해 접속이 차단되었습니다") = true ∨
      (effData { message := some "연속조회로 인해 접속이 차단되었습니다" }).ipcheck =
        some false) ∧
    scrapeDocuments 500
        (some { message := some "연속조회로 인해 접속이 차단되었습니다" }) =
      ScrapeResult.blocked (some "연속조회로 인해 접속이 차단되었습니다") :=
  ⟨Or.inl (by decide),
   block_priority_in_classifier 500
     { message := some "연속조회로 인해 접속이 차단되었습니다" }
     (Or.inl (by decide))⟩

/-- C5: the pending list is exactly the sublist of the loaded entries, in
their original order, whose key is not in the checkpoint's completed set
and whose `deliveryRecords` field is absent; an entry whose
`deliveryRecords` is present — even as the empty sequence — is never
selected again.  In particular, from entries with keys A,B,C,D and a
checkpoint completing {A,B}, exactly C and D remain, in that order. -/
theorem pending_targets_characterization (details : List DetailEntry)
    (completed : List String) :
    (pendingTargets details completed).Sublist details ∧
    (∀ d, d ∈ pendingTargets details completed ↔
      d ∈ details ∧ completed.contains (entryKey d) = false ∧
        d.deliveryRecords = none) := by
  constructor
  · exact List.filter_sublist details
  · intro d
    simp [pendingTargets, List.mem_filter, Option.isNone_iff_eq_none]

/-- C7: merging any outcome into a `DetailEntry` touches at most the four
collection fields `deliveryRecords`, `documentRecords`, `mergerRecords`,
`priorCaseInfo`: the key codes, the display fields and all remaining
dynamic fields are unchanged by all three merges; the success merge
overwrites the two primary collections unconditionally (defaulting missing
lists to empty), attaches `mergerRecords` only when the extracted list is
non-empty, and attaches `priorCaseInfo` only when the prior-case object is
present with at least one key. -/
theorem merge_frame_properties (d : DataObj) (e : DetailEntry) :
    ((applySuccess d e).cortOfcCd = e.cortOfcCd ∧
     (applySuccess d e).csNo = e.csNo ∧
     (applySuccess d e).courtName = e.courtName ∧
     (applySuccess d e).caseNumber = e.caseNumber ∧
     (applySuccess d e).extra = e.extra) ∧
    ((applyNoData e).cortOfcCd = e.cortOfcCd ∧
     (applyNoData e).csNo = e.csNo ∧
     (applyNoData e).courtName = e.courtName ∧
     (applyNoData e).caseNumber = e.caseNumber ∧
     (applyNoData e).extra = e.extra ∧
     (applyNoData e).mergerRecords = e.mergerRecords ∧
     (applyNoData e).priorCaseInfo = e.priorCaseInfo) ∧
    ((applyError e).cortOfcCd = e.cortOfcCd ∧
     (applyError e).csNo = e.csNo ∧
     (applyError e).courtName = e.courtName ∧
     (applyError e).caseNumber = e.caseNumber ∧
     (applyError e).extra = e.extra ∧
     (applyError e).mergerRecords = e.mergerRecords ∧
     (applyError e).priorCaseInfo = e.priorCaseInfo) ∧
    ((applySuccess d e).deliveryRecords =
      some (d.dlt_dlvrDtsLst.getD []) ∧
     (applySuccess d e).documentRecords =
      some (d.dlt_ofdocDtsLst.getD [])) ∧
    ((applySuccess d e).mergerRecords =
      if (d.dlt_mrgDpcnSbxLst.getD []).length > 0
      then some (d.dlt_mrgDpcnSbxLst.getD []) else e.mergerRecords) ∧
    ((applySuccess d e).priorCaseInfo =
      if (d.dma_trnscsBfCsInfo.getD []).length > 0
      then d.dma_trnscsBfCsInfo else e.priorCaseInfo) := by
  unfold applySuccess applyNoData applyError
  rcases hpc : d.dma_trnscsBfCsInfo with _ | pc
  all_goals dsimp only
  all_goals split_ifs with h1 h2
  all_goals simp_all

/-- Counterexample to C9: a record store loaded as the key→entry mapping
`{"foo": entA}` is saved by `saveDetails` as `{"0": entA}` — the entries
and their order survive, but the original key `"foo"` is replaced by the
decimal position index, so a mapping-shaped store is *not* saved under its
original keys. -/
theorem save_rekeys_object_cex :
    loadDetails (StoreShape.obj [("foo", entA)]) = [entA] ∧
    isArrayShape (StoreShape.obj [("foo", entA)]) = false ∧
    saveDetailsOut false (loadDetails (StoreShape.obj [("foo", entA)])) =
      StoreShape.obj [("0", entA)] ∧
    saveDetailsOut false (loadDetails (StoreShape.obj [("foo", entA)])) ≠
      StoreShape.obj [("foo", entA)] := by decide

/-- C9 (amended): `saveDetails` preserves the *shape* of the store and the
entries in their loaded order, but not the keys of a mapping-shaped store:
an array-shaped store is saved back as the same entry sequence in the same
order, while a mapping-shaped store is saved as a mapping whose values are
the entries in load order and whose keys are the decimal position strings
"0", "1", …, regardless of the keys it was loaded with. -/
theorem save_shape_behavior (ds es : List DetailEntry)
    (kvs : List (String × DetailEntry)) :
    saveDetailsOut true ds = StoreShape.arr ds ∧
    (match saveDetailsOut false ds with
     | StoreShape.arr _ => False
     | StoreShape.obj l =>
        l.map Prod.snd = ds ∧
        l.map Prod.fst = (List.range ds.length).map toString) ∧
    loadDetails (StoreShape.arr es) = es ∧
    loadDetails (StoreShape.obj kvs) = kvs.map Prod.snd := by
  refine ⟨by simp [saveDetailsOut], ?_, rfl, rfl⟩
  simp only [saveDetailsOut, Bool.false_eq_true, if_false]
  constructor
  · rw [List.map_map]
    have : (Prod.snd ∘ fun p : Nat × DetailEntry => (toString p.1, p.2)) =
        Prod.snd := by
      funext p
      rfl
    rw [this, List.enum_map_snd]
  · rw [List.map_map]
    have : (Prod.fst ∘ fun p : Nat × DetailEntry => (toString p.1, p.2)) =
        (toString ∘ Prod.fst) := by
      funext p
      rfl
    rw [this, ← List.map_map, List.enum_map_fst]

/-- C1: a fetch classified `__blocked` while the consecutive-block count
is still below `MAX_CONSECUTIVE_BLOCKS` (the incremented count has not
reached the threshold) makes the orchestrator wait the fixed
`IP_BLOCK_WAIT` cooldown, re-establish the session, and run the loop again
at the *same* index, so the same work item is re-processed without being
advanced past; the blocked attempt leaves the record store (`details`),
the checkpoint (`progress`, in particular its completed set) and all run
counters other than `consecutiveBlocks` untouched. -/
theorem blocked_below_max_retries_same_item (cfg : Config)
    (targets : List DetailEntry) (keys0 : List String) (i : Nat)
    (m : Option String) (rest : List ScrapeResult) (saves : List Bool)
    (st : RunState) (idx : Nat) (hi : i < targets.length)
    (hidx : lastIdxOf keys0 (entryKey (targets.get ⟨i, hi⟩)) = some idx)
    (hlt : st.consecutiveBlocks + 1 < MAX_CONSECUTIVE_BLOCKS) :
    runLoop cfg targets keys0 i (ScrapeResult.blocked m :: rest) saves st =
      runLoop cfg targets keys0 i rest saves
        { st with consecutiveBlocks := st.consecutiveBlocks + 1,
                  cooldownMs := st.cooldownMs + IP_BLOCK_WAIT,
                  refreshes := st.refreshes + 1 } :=
  runLoop_goto cfg targets keys0 i (ScrapeResult.blocked m :: rest) saves st
    i rest saves _
    (loopBody_blocked_retry cfg targets keys0 i m rest saves st idx hi hidx
      hlt)

/-- Witness for C1 at a concrete input: one pending item, a blocked first
fetch, consecutive-block count 0 before the attempt. -/
theorem blocked_below_max_retries_same_item_witness :
    (0 : Nat) < ([entA] : List DetailEntry).length ∧
    lastIdxOf [entryKey entA]
      (entryKey (([entA] : List DetailEntry).get ⟨0, Nat.zero_lt_one⟩)) =
      some 0 ∧
    ({ details := [entA], progress := progA } : RunState).consecutiveBlocks
      + 1 < MAX_CONSECUTIVE_BLOCKS ∧
    runLoop {} [entA] [entryKey entA] 0 [ScrapeResult.blocked none] []
        { details := [entA], progress := progA } =
      runLoop {} [entA] [entryKey entA] 0 [] []
        { details := [entA], progress := progA, consecutiveBlocks := 1,
          cooldownMs := IP_BLOCK_WAIT, refreshes := 1 } :=
  ⟨Nat.zero_lt_one, by decide, by decide,
   blocked_below_max_retries_same_item {} [entA] [entryKey entA] 0 none []
     [] { details := [entA], progress := progA } 0 Nat.zero_lt_one
     (by decide) (by decide)⟩

/-- C2: when a blocked fetch raises the consecutive-block count to
`MAX_CONSECUTIVE_BLOCKS`, the orchestrator aborts right there: it writes
the record store (the current in-memory `details`, which already contains
every previously settled item's merged result) and the checkpoint to
durable storage and terminates with the failure exit status 1, processing
no further items. -/
theorem abort_at_max_consecutive_blocks (cfg : Config)
    (targets : List DetailEntry) (keys0 : List String) (i : Nat)
    (m : Option String) (rest : List ScrapeResult) (saves2 : List Bool)
    (st : RunState) (idx : Nat) (hi : i < targets.length)
    (hidx : lastIdxOf keys0 (entryKey (targets.get ⟨i, hi⟩)) = some idx)
    (hge : MAX_CONSECUTIVE_BLOCKS ≤ st.consecutiveBlocks + 1) :
    runLoop cfg targets keys0 i (ScrapeResult.blocked m :: rest)
        (true :: true :: saves2) st =
      ({ st with consecutiveBlocks := st.consecutiveBlocks + 1,
                 savedDetails := some st.details,
                 progress := { st.progress with lastUpdated := cfg.now },
                 savedProgress :=
                   some { st.progress with lastUpdated := cfg.now },
                 saveAttempts := st.saveAttempts + 2 },
       saves2, ExitKind.aborted) ∧
    exitCode ExitKind.aborted = 1 :=
  ⟨runLoop_halt cfg targets keys0 i (ScrapeResult.blocked m :: rest)
      (true :: true :: saves2) st _ saves2 ExitKind.aborted
      (loopBody_blocked_abort cfg targets keys0 i m rest saves2 st idx hi
        hidx hge),
   rfl⟩

/-- Witness for C2 at a concrete input: consecutive-block count 4 before
the attempt, one blocked fetch, both writes succeeding. -/
theorem abort_at_max_consecutive_blocks_witness :
    (0 : Nat) < ([entA] : List DetailEntry).length ∧
    lastIdxOf [entryKey entA]
      (entryKey (([entA] : List DetailEntry).get ⟨0, Nat.zero_lt_one⟩)) =
      some 0 ∧
    MAX_CONSECUTIVE_BLOCKS ≤
      ({ details := [entA], progress := progA, consecutiveBlocks := 4 } :
        RunState).consecutiveBlocks + 1 ∧
    (runLoop {} [entA] [entryKey entA] 0 [ScrapeResult.blocked none]
        [true, true]
        { details := [entA], progress := progA, consecutiveBlocks := 4 } =
      ({ details := [entA],
         progress := { progA with lastUpdated := "" },
         consecutiveBlocks := 5,
         savedDetails := some [entA],
         savedProgress := some { progA with lastUpdated := "" },
         saveAttempts := 2 },
       ([] : List Bool), ExitKind.aborted) ∧
     exitCode ExitKind.aborted = 1) :=
  ⟨Nat.zero_lt_one, by decide, by decide,
   abort_at_max_consecutive_blocks {} [entA] [entryKey entA] 0 none [] []
     { details := [entA], progress := progA, consecutiveBlocks := 4 } 0
     Nat.zero_lt_one (by decide) (by decide)⟩

/-- Counterexample to C4: processing an item whose fetch is classified
`__error` while the consecutive-block count is 3 does *not* leave the
counter unchanged — line 250 resets `consecutiveBlocks` to 0 for every
non-blocked result, including errors.  Concretely, one loop pass at index
1 over an error result takes the counter from 3 to 0. -/
theorem error_resets_blocks_cex :
    gotoIdx (loopBody {} [entA, entB] [entryKey entA, entryKey entB] 1
        [ScrapeResult.error none none] []
        { details := [entA, entB], progress := progA,
          consecutiveBlocks := 3 }) = some 2 ∧
    (gotoState (loopBody {} [entA, entB] [entryKey entA, entryKey entB] 1
        [ScrapeResult.error none none] []
        { details := [entA, entB], progress := progA,
          consecutiveBlocks := 3 })).map
        (fun st2 => (st2.consecutiveBlocks, st2.errors, st2.success,
          st2.progress.completed)) =
      some (0, 1, 1, [entryKey entB]) := by decide

/-- C4 (amended): processing an item whose fetch outcome is classified
`__error` RESETS the consecutive-block counter to 0 — the reset at line
250 runs for every non-blocked outcome, so Error behaves exactly like
Success and NoData with respect to the counter — while, as the claim says,
the item's key is appended to the checkpoint's completed set and the error
counter is incremented (the success counter too).  Stated for an index
with no periodic flush due. -/
theorem error_outcome_resets_blocks (cfg : Config)
    (targets : List DetailEntry) (keys0 : List String) (i : Nat)
    (s : Option Nat) (m : Option String) (rest : List ScrapeResult)
    (saves : List Bool) (st : RunState) (idx : Nat)
    (hi : i < targets.length)
    (hidx : lastIdxOf keys0 (entryKey (targets.get ⟨i, hi⟩)) = some idx)
    (hflush : (i % 10 == 0 || cfg.testMode) = false) :
    runLoop cfg targets keys0 i (ScrapeResult.error s m :: rest) saves st =
      runLoop cfg targets keys0 (i+1) rest saves
        { st with details := updateEntry st.details idx applyError,
                  consecutiveBlocks := 0,
                  errors := st.errors + 1,
                  success := st.success + 1,
                  progress := pushCompleted st.progress
                    (entryKey (targets.get ⟨i, hi⟩)) } := by
  refine runLoop_goto cfg targets keys0 i _ saves st (i+1) rest saves _ ?_
  rw [loopBody_settled_noflush cfg targets keys0 i (ScrapeResult.error s m)
    rest saves st idx hi hidx rfl hflush]
  rfl

/-- Witness for the amended C4 at a concrete input: index 1 (no flush
due), an error result, consecutive-block count 3 beforehand. -/
theorem error_outcome_resets_blocks_witness :
    (1 : Nat) < ([entA, entB] : List DetailEntry).length ∧
    lastIdxOf [entryKey entA, entryKey entB]
      (entryKey (([entA, entB] : List DetailEntry).get
        ⟨1, Nat.one_lt_two⟩)) = some 1 ∧
    ((1 % 10 == 0 || ({} : Config).testMode) = false) ∧
    runLoop {} [entA, entB] [entryKey entA, entryKey entB] 1
        [ScrapeResult.error none none] []
        { details := [entA, entB], progress := progA,
          consecutiveBlocks := 3 } =
      runLoop {} [entA, entB] [entryKey entA, entryKey entB] 2 [] []
        { details := updateEntry [entA, entB] 1 applyError,
          progress := pushCompleted progA
            (entryKey (([entA, entB] : List DetailEntry).get
              ⟨1, Nat.one_lt_two⟩)),
          consecutiveBlocks := 0, errors := 1, success := 1 } :=
  ⟨Nat.one_lt_two, by decide, by decide,
   error_outcome_resets_blocks {} [entA, entB]
     [entryKey entA, entryKey entB] 1 none none [] []
     { details := [entA, entB], progress := progA,
       consecutiveBlocks := 3 } 1 Nat.one_lt_two (by decide) (by decide)⟩

/-- C6: an item that settles as `__nodata` or as `__error` ends with both
primary collections present as *empty sequences* and its key appended to
the checkpoint's completed set — distinguishable from a never-attempted
entry, whose `deliveryRecords`/`documentRecords` are absent (`none`) and
whose key was never pushed; the error outcome additionally increments the
run's error counter while the no-data outcome does not.  Stated for an
index with no periodic flush due. -/
theorem nodata_error_terminal_empty (cfg : Config)
    (targets : List DetailEntry) (keys0 : List String) (i : Nat)
    (msg : String) (s : Option Nat) (m : Option String)
    (rest : List ScrapeResult) (saves : List Bool) (st : RunState)
    (idx : Nat) (hi : i < targets.length)
    (hidx : lastIdxOf keys0 (entryKey (targets.get ⟨i, hi⟩)) = some idx)
    (hflush : (i % 10 == 0 || cfg.testMode) = false) :
    (runLoop cfg targets keys0 i (ScrapeResult.nodata msg :: rest) saves
        st =
      runLoop cfg targets keys0 (i+1) rest saves
        { st with details := updateEntry st.details idx applyNoData,
                  consecutiveBlocks := 0,
                  success := st.success + 1,
                  progress := pushCompleted st.progress
                    (entryKey (targets.get ⟨i, hi⟩)) }) ∧
    (runLoop cfg targets keys0 i (ScrapeResult.error s m :: rest) saves
        st =
      runLoop cfg targets keys0 (i+1) rest saves
        { st with details := updateEntry st.details idx applyError,
                  consecutiveBlocks := 0,
                  errors := st.errors + 1,
                  success := st.success + 1,
                  progress := pushCompleted st.progress
                    (entryKey (targets.get ⟨i, hi⟩)) }) ∧
    (∀ e : DetailEntry,
      (applyNoData e).deliveryRecords = some [] ∧
      (applyNoData e).documentRecords = some [] ∧
      (applyError e).deliveryRecords = some [] ∧
      (applyError e).documentRecords = some [] ∧
      (applyNoData e).deliveryRecords ≠ none ∧
      (applyError e).deliveryRecords ≠ none) := by
  refine ⟨?_, ?_, fun e => by simp [applyNoData, applyError]⟩
  · refine runLoop_goto cfg targets keys0 i _ saves st (i+1) rest saves
      _ ?_
    rw [loopBody_settled_noflush cfg targets keys0 i
      (ScrapeResult.nodata msg) rest saves st idx hi hidx rfl hflush]
    rfl
  · refine runLoop_goto cfg targets keys0 i _ saves st (i+1) rest saves
      _ ?_
    rw [loopBody_settled_noflush cfg targets keys0 i
      (ScrapeResult.error s m) rest saves st idx hi hidx rfl hflush]
    rfl

/-- Witness for C6 at a concrete input: index 1, no-data and error
results against a fresh two-entry store. -/
theorem nodata_error_terminal_empty_witness :
    (1 : Nat) < ([entA, entB] : List DetailEntry).length ∧
    lastIdxOf [entryKey entA, entryKey entB]
      (entryKey (([entA, entB] : List DetailEntry).get
        ⟨1, Nat.one_lt_two⟩)) = some 1 ∧
    ((1 % 10 == 0 || ({} : Config).testMode) = false) ∧
    ((runLoop {} [entA, entB] [entryKey entA, entryKey entB] 1
        [ScrapeResult.nodata "데이터 없음"] []
        { details := [entA, entB], progress := progA } =
      runLoop {} [entA, entB] [entryKey entA, entryKey entB] 2 [] []
        { details := updateEntry [entA, entB] 1 applyNoData,
          progress := pushCompleted progA
            (entryKey (([entA, entB] : List DetailEntry).get
              ⟨1, Nat.one_lt_two⟩)),
          consecutiveBlocks := 0, success := 1 }) ∧
     (runLoop {} [entA, entB] [entryKey entA, entryKey entB] 1
        [ScrapeResult.error (some 500) none] []
        { details := [entA, entB], progress := progA } =
      runLoop {} [entA, entB] [entryKey entA, entryKey entB] 2 [] []
        { details := updateEntry [entA, entB] 1 applyError,
          progress := pushCompleted progA
            (entryKey (([entA, entB] : List DetailEntry).get
              ⟨1, Nat.one_lt_two⟩)),
          consecutiveBlocks := 0, errors := 1, success := 1 }) ∧
     (∀ e : DetailEntry,
      (applyNoData e).deliveryRecords = some [] ∧
      (applyNoData e).documentRecords = some [] ∧
      (applyError e).deliveryRecords = some [] ∧
      (applyError e).documentRecords = some [] ∧
      (applyNoData e).deliveryRecords ≠ none ∧
      (applyError e).deliveryRecords ≠ none)) :=
  ⟨Nat.one_lt_two, by decide, by decide,
   nodata_error_terminal_empty {} [entA, entB]
     [entryKey entA, entryKey entB] 1 "데이터 없음" (some 500) none [] []
     { details := [entA, entB], progress := progA } 1 Nat.one_lt_two
     (by decide) (by decide)⟩

/-- Counterexample to C8: in a two-item run whose first periodic
checkpoint write fails, the write is *not* retried and the run does *not*
terminate: the exception is caught by the per-item handler (`errors`
becomes 1, exactly one write attempt so far), the loop moves on to the
second item, settles it, and the run completes normally with exit
status 0 — the claimed retry-once-then-terminate behavior does not
exist in the code. -/
theorem persistence_failure_cex :
    runLoop {} [entA, entB] [entryKey entA, entryKey entB] 0
        [ScrapeResult.nodata "데이터 없음", ScrapeResult.nodata "데이터 없음"]
        [false] c8st0 =
      runLoop {} [entA, entB] [entryKey entA, entryKey entB] 1
        [ScrapeResult.nodata "데이터 없음"] [] c8st1 ∧
    c8st1.saveAttempts = 1 ∧ c8st1.errors = 1 ∧
    c8st1.savedProgress = none ∧ c8st1.savedDetails = none ∧
    runLoop {} [entA, entB] [entryKey entA, entryKey entB] 0
        [ScrapeResult.nodata "데이터 없음", ScrapeResult.nodata "데이터 없음"]
        [false] c8st0 = (c8stF, [], ExitKind.normal) ∧
    c8stF.success = 2 ∧ c8stF.errors = 1 ∧ c8stF.saveAttempts = 3 ∧
    exitCode ExitKind.normal = 0 := by
  have h1 : runLoop {} [entA, entB] [entryKey entA, entryKey entB] 0
      [ScrapeResult.nodata "데이터 없음", ScrapeResult.nodata "데이터 없음"]
      [false] c8st0 =
      runLoop {} [entA, entB] [entryKey entA, entryKey entB] 1
        [ScrapeResult.nodata "데이터 없음"] [] c8st1 :=
    runLoop_goto _ _ _ _ _ _ _ _ _ _ _ (by decide)
  have h2 : runLoop {} [entA, entB] [entryKey entA, entryKey entB] 1
      [ScrapeResult.nodata "데이터 없음"] [] c8st1 =
      runLoop {} [entA, entB] [entryKey entA, entryKey entB] 2 [] []
        c8st2 :=
    runLoop_goto _ _ _ _ _ _ _ _ _ _ _ (by decide)
  have h3 : runLoop {} [entA, entB] [entryKey entA, entryKey entB] 2 [] []
      c8st2 = (c8stF, [], ExitKind.normal) :=
    runLoop_halt _ _ _ _ _ _ _ _ _ _ (by decide)
  exact ⟨h1, by decide, by decide, by decide, by decide,
    by rw [h1, h2, h3], by decide, by decide, by decide, rfl⟩

/-- C8 (amended): a checkpoint/record-store write that fails during the
periodic in-loop flush is *not* retried — exactly one write attempt is
made — and the run does *not* terminate: the exception is caught by the
per-item handler, which increments the error counter, and the loop
continues with the next item; neither durable snapshot changes for that
flush. -/
theorem persistence_failure_continues (cfg : Config)
    (targets : List DetailEntry) (keys0 : List String) (i : Nat)
    (r : ScrapeResult) (rest : List ScrapeResult) (saves2 : List Bool)
    (st : RunState) (idx : Nat) (hi : i < targets.length)
    (hidx : lastIdxOf keys0 (entryKey (targets.get ⟨i, hi⟩)) = some idx)
    (hnb : isBlockedR r = false)
    (hflush : (i % 10 == 0 || cfg.testMode) = true) :
    runLoop cfg targets keys0 i (r :: rest) (false :: saves2) st =
      runLoop cfg targets keys0 (i+1) rest saves2
        (let st1 := applyOutcome r idx (entryKey (targets.get ⟨i, hi⟩))
           { st with consecutiveBlocks := 0 }
         { st1 with
             progress := { st1.progress with lastUpdated := cfg.now },
             saveAttempts := st1.saveAttempts + 1,
             errors := st1.errors + 1 }) :=
  runLoop_goto cfg targets keys0 i (r :: rest) (false :: saves2) st (i+1)
    rest saves2 _
    (loopBody_settled_flush_fail1 cfg targets keys0 i r rest saves2 st idx
      hi hidx hnb hflush)

/-- Witness for the amended C8 at a concrete input: index 0 (flush due),
a no-data result, the single save-oracle entry `false` failing the
progress write. -/
theorem persistence_failure_continues_witness :
    (0 : Nat) < ([entA, entB] : List DetailEntry).length ∧
    lastIdxOf [entryKey entA, entryKey entB]
      (entryKey (([entA, entB] : List DetailEntry).get
        ⟨0, Nat.zero_lt_two⟩)) = some 0 ∧
    isBlockedR (ScrapeResult.nodata "데이터 없음") = false ∧
    ((0 % 10 == 0 || ({} : Config).testMode) = true) ∧
    runLoop {} [entA, entB] [entryKey entA, entryKey entB] 0
        [ScrapeResult.nodata "데이터 없음", ScrapeResult.nodata "데이터 없음"]
        [false] c8st0 =
      runLoop {} [entA, entB] [entryKey entA, entryKey entB] 1
        [ScrapeResult.nodata "데이터 없음"] []
        (let st1 := applyOutcome (ScrapeResult.nodata "데이터 없음") 0
           (entryKey (([entA, entB] : List DetailEntry).get
             ⟨0, Nat.zero_lt_two⟩))
           { c8st0 with consecutiveBlocks := 0 }
         { st1 with
             progress := { st1.progress with
               lastUpdated := ({} : Config).now },
             saveAttempts := st1.saveAttempts + 1,
             errors := st1.errors + 1 }) :=
  ⟨Nat.zero_lt_two, by decide, rfl, rfl,
   persistence_failure_continues {} [entA, entB]
     [entryKey entA, entryKey entB] 0 (ScrapeResult.nodata "데이터 없음")
     [ScrapeResult.nodata "데이터 없음"] [] c8st0 0 Nat.zero_lt_two
     (by decide) rfl rfl⟩

/-- Witness for C10 at a concrete input: a two-item run, one success and
one error, no blocks, all lookups resolving, empty (all-successful) save
oracle. -/
theorem success_counts_all_settled_witness :
    (∀ r ∈ [ScrapeResult.data {}, ScrapeResult.error none none],
      isBlockedR r = false) ∧
    ([ScrapeResult.data {}, ScrapeResult.error none none].length =
      ([entA, entB] : List DetailEntry).length - 0) ∧
    (∀ j, ∀ hj : j < ([entA, entB] : List DetailEntry).length, 0 ≤ j →
      (lastIdxOf [entryKey entA, entryKey entB]
        (entryKey (([entA, entB] : List DetailEntry).get
          ⟨j, hj⟩))).isSome = true) ∧
    (∀ b ∈ ([] : List Bool), b = true) ∧
    ((runLoop {} [entA, entB] [entryKey entA, entryKey entB] 0
        [ScrapeResult.data {}, ScrapeResult.error none none] []
        { details := [entA, entB], progress := progA }).1.success =
      ({ details := [entA, entB], progress := progA } : RunState).success +
        [ScrapeResult.data {}, ScrapeResult.error none none].length ∧
     (runLoop {} [entA, entB] [entryKey entA, entryKey entB] 0
        [ScrapeResult.data {}, ScrapeResult.error none none] []
        { details := [entA, entB], progress := progA }).1.errors =
      ({ details := [entA, entB], progress := progA } : RunState).errors +
        [ScrapeResult.data {}, ScrapeResult.error none none].countP
          isErrorR ∧
     (runLoop {} [entA, entB] [entryKey entA, entryKey entB] 0
        [ScrapeResult.data {}, ScrapeResult.error none none] []
        { details := [entA, entB], progress := progA }).2.2 =
      ExitKind.normal) :=
  ⟨by decide, by decide, by decide, by decide,
   success_counts_all_settled {} [entA, entB]
     [entryKey entA, entryKey entB] 0
     [ScrapeResult.data {}, ScrapeResult.error none none] []
     { details := [entA, entB], progress := progA }
     (by decide) (by decide) (by decide) (by decide)⟩
